import Mathlib

/-!
Verification of the Fire TV monitoring daemon (scripts/error_detector.py,
scripts/auto_fixer.py, scripts/monitor.py) via a shallow embedding.

Modelling conventions:
- Python wall-clock readings (time.time()) are passed explicitly as Int
  parameters, modelling time at whole-second resolution; every interval in the
  code (cooldown 60, windows 600 and 3600) is integral.
- Python float arithmetic appears only in the memory-leak ratio, the leak
  percentage and the fix success rate; these are modelled with exact Rat
  arithmetic (the concrete values the claims exercise are exact in floats).
- Python dicts with string keys are modelled as insertion-ordered association
  lists; dictionary assignment updates in place or appends a new key at the end.
- Python exceptions raised inside a modelled function are modelled with
  Except String; a ZeroDivisionError is an Except.error value.
- Blocking device interactions (adb calls inside the fix strategies) are
  external effects: a fix strategy is modelled by its observable result, a
  value of type DetectedError -> Except String FixResult supplied as a
  parameter (Except.error models an exception escaping the strategy).
-/

namespace HazelMonitor

/-- Value models a Python JSON-like value stored in the details dictionaries. -/
inductive Value where
  | str : String → Value
  | num : Rat → Value
  | arr : List Value → Value
  | dict : List (String × Value) → Value

/-- Severity levels of error_detector.ErrorSeverity. -/
inductive ErrorSeverity where
  | low
  | medium
  | high
  | critical
deriving DecidableEq

/-- String value of an ErrorSeverity member, as in the Python enum. -/
def ErrorSeverity.value : ErrorSeverity → String
  | .low => "low"
  | .medium => "medium"
  | .high => "high"
  | .critical => "critical"

/-- DetectedError record of error_detector.py. -/
structure DetectedError where
  error_type : String
  severity : ErrorSeverity
  message : String
  details : List (String × Value)
  timestamp : Int
  source : String

/-- DetectedError.to_dict from error_detector.py. -/
def DetectedError.to_dict (e : DetectedError) : Value :=
  .dict [("error_type", .str e.error_type),
         ("severity", .str e.severity.value),
         ("message", .str e.message),
         ("details", .dict e.details),
         ("timestamp", .num (e.timestamp : Rat)),
         ("source", .str e.source)]

/-- Checks whether the second list of characters starts with the first. -/
def charsStartWith : List Char → List Char → Bool
  | [], _ => true
  | _ :: _, [] => false
  | a :: as, b :: bs => a == b && charsStartWith as bs

/-- Checks whether the needle occurs as a contiguous sublist of the haystack. -/
def charsContain (needle : List Char) : List Char → Bool
  | [] => charsStartWith needle []
  | b :: bs => charsStartWith needle (b :: bs) || charsContain needle bs

/-- Models the Python substring test (needle in haystack). -/
def containsSub (haystack needle : String) : Bool :=
  charsContain needle.data haystack.data

/-- Lower-cases an ASCII letter; models Python str.lower on the ASCII range. -/
def asciiLower (c : Char) : Char :=
  if 'A' ≤ c && c ≤ 'Z' then Char.ofNat (c.toNat + 32) else c

/-- Upper-cases an ASCII letter; models Python str.upper on the ASCII range. -/
def asciiUpper (c : Char) : Char :=
  if 'a' ≤ c && c ≤ 'z' then Char.ofNat (c.toNat - 32) else c

/-- Models Python str.lower for ASCII strings. -/
def strLower (s : String) : String :=
  String.mk (s.data.map asciiLower)

/-- Models Python str.title on ASCII text: each run of letters starts upper-cased,
the rest of the run is lower-cased. -/
def titleChars : List Char → Bool → List Char
  | [], _ => []
  | c :: cs, startWord =>
    if ('a' ≤ c && c ≤ 'z') || ('A' ≤ c && c ≤ 'Z') then
      (if startWord then asciiUpper c else asciiLower c) :: titleChars cs false
    else
      c :: titleChars cs true

/-- Models Python str.title. -/
def pyTitle (s : String) : String :=
  String.mk (titleChars s.data true)

/-- Models the Python expression name.replace with underscore turned to space. -/
def underscoreToSpace (s : String) : String :=
  String.mk (s.data.map (fun c => if c == '_' then ' ' else c))

/-- Models the Python slice l[-k:], used for history trimming. Note that for
k = 0 the Python slice keeps the whole list. -/
def pySliceLast {α : Type} (l : List α) (k : Nat) : List α :=
  if k = 0 then l else l.drop (l.length - k)

/-- Named detection rule of error_detector.py. The compiled regular expression
together with its extraction function is modelled by its observable behaviour,
a function from the scanned line to the optional extracted details. -/
structure ErrorPattern where
  name : String
  severity : ErrorSeverity
  match_fn : String → Option (List (String × Value))

/-- UI-monitoring configuration keys read by error_detector.py, with their
Python .get defaults made explicit at construction sites. -/
structure UIConfig where
  state_aware_checking : Bool
  expected_elements_by_state : List (String × List String)
  ignore_missing_elements_in_states : List String
  strict_element_checking : Bool
  focus_enabled : Bool
  focus_ignore_in_states : List String

/-- Default UIConfig: every key absent, so every .get falls back to its default. -/
def defaultUIConfig : UIConfig :=
  { state_aware_checking := true
    expected_elements_by_state := []
    ignore_missing_elements_in_states := []
    strict_element_checking := false
    focus_enabled := true
    focus_ignore_in_states := [] }

/-- Mutable state of error_detector.ErrorDetector. The single-slot previous
memory sample (the _last_memory_usage attribute, absent until first set) is an
Option. -/
structure ErrorDetector where
  app_package : String
  ui_config : UIConfig
  error_patterns : List ErrorPattern
  error_history : List DetectedError
  max_history_size : Nat
  last_memory_usage : Option Int

/-- Fresh detector as built by ErrorDetector.__init__. -/
def initErrorDetector (cfg : UIConfig) (patterns : List ErrorPattern) : ErrorDetector :=
  { app_package := "com.webviewer.firetv"
    ui_config := cfg
    error_patterns := patterns
    error_history := []
    max_history_size := 1000
    last_memory_usage := none }

/-- Relevance pre-filter of analyze_logcat_line: the line mentions the app
package or one of the fixed keywords, case-insensitively. -/
def lineRelevant (d : ErrorDetector) (line : String) : Bool :=
  containsSub line d.app_package ||
  (["fatal", "error", "exception", "crash", "anr"].any
    (fun kw => containsSub (strLower line) kw))

/-- ErrorDetector.analyze_logcat_line: evaluate every rule when the pre-filter
admits the line, producing one DetectedError per matching rule. -/
def analyze_logcat_line (d : ErrorDetector) (line : String) (now : Int) :
    List DetectedError :=
  if lineRelevant d line then
    d.error_patterns.filterMap (fun p =>
      (p.match_fn line).map (fun details =>
        { error_type := p.name
          severity := p.severity
          message := pyTitle (underscoreToSpace p.name) ++ " detected"
          details := details
          timestamp := now
          source := "logcat" }))
  else []

/-- The high_memory_usage error literal of analyze_memory_usage. -/
def highMemErrorAt (total_pss now : Int) : DetectedError :=
  { error_type := "high_memory_usage"
    severity := .medium
    message := "High memory usage detected: " ++ toString total_pss ++ "KB"
    details := [("memory_usage_kb", .num (total_pss : Rat)),
                ("threshold_kb", .num 500000)]
    timestamp := now
    source := "memory" }

/-- The potential_memory_leak error literal of analyze_memory_usage, with the
percentage computed in exact rational arithmetic (modelling the float). -/
def memLeakErrorAt (last_usage total_pss now : Int) : DetectedError :=
  { error_type := "potential_memory_leak"
    severity := .high
    message := "Potential memory leak: " ++ toString last_usage ++ "KB -> " ++
               toString total_pss ++ "KB"
    details := [("previous_usage_kb", .num (last_usage : Rat)),
                ("current_usage_kb", .num (total_pss : Rat)),
                ("increase_percentage",
                  .num ((((total_pss : Rat) - (last_usage : Rat)) / (last_usage : Rat)) * 100))]
    timestamp := now
    source := "memory" }

/-- The comparison total_pss > last_usage * 1.5 of analyze_memory_usage, with
the Python float arithmetic modelled exactly in Rat. -/
def leakCond (last_usage total_pss : Int) : Bool :=
  decide ((last_usage : Rat) * 1.5 < (total_pss : Rat))

/-- ErrorDetector.analyze_memory_usage. Returns the emitted errors and the
updated detector, or an Except.error when Python would raise
ZeroDivisionError computing the percentage with a zero previous sample. -/
def analyze_memory_usage (d : ErrorDetector) (memory_info : List (String × Int))
    (now : Int) : Except String (List DetectedError × ErrorDetector) :=
  if memory_info.isEmpty then .ok ([], d)
  else
    let total_pss := (memory_info.lookup "total_pss_kb").getD 0
    let highErrors : List DetectedError :=
      if 500000 < total_pss then [highMemErrorAt total_pss now] else []
    match d.last_memory_usage with
    | none => .ok (highErrors, { d with last_memory_usage := some total_pss })
    | some last_usage =>
      if leakCond last_usage total_pss then
        if last_usage = 0 then
          .error "ZeroDivisionError: division by zero"
        else
          .ok (highErrors ++ [memLeakErrorAt last_usage total_pss now],
            { d with last_memory_usage := some total_pss })
      else .ok (highErrors, { d with last_memory_usage := some total_pss })

/-- ErrorDetector._detect_app_state. -/
def detect_app_state (ui_dump : String) : String :=
  if containsSub ui_dump "SettingsActivity" || containsSub ui_dump "ProfilesActivity" ||
      containsSub ui_dump "ProfileEditActivity" then "settings"
  else if containsSub (strLower ui_dump) "loading" ||
      containsSub (strLower ui_dump) "progress" then "loading"
  else if containsSub ui_dump "welcomeContainer" &&
      !containsSub ui_dump "visibility=\"gone\"" then "error_welcome"
  else if containsSub ui_dump "webViewCard" &&
      !containsSub ui_dump "visibility=\"gone\"" then "browsing"
  else "unknown"

/-- ErrorDetector._get_expected_elements_for_state. -/
def get_expected_elements_for_state (d : ErrorDetector) (app_state : String)
    (_ui_dump : String) : List String :=
  if !d.ui_config.state_aware_checking then
    ["profilesButton", "webView", "browserToolbar"]
  else
    let expected := ((d.ui_config.expected_elements_by_state.lookup app_state).getD [])
    let expected :=
      if d.ui_config.ignore_missing_elements_in_states.contains app_state then []
      else expected
    if d.ui_config.strict_element_checking && app_state == "browsing" then
      ["profilesButton", "webView", "browserToolbar"]
    else expected

/-- ErrorDetector.analyze_ui_dump: empty dump short-circuits, otherwise the
state-aware missing-element check runs, then the focus check. -/
def analyze_ui_dump (d : ErrorDetector) (ui_dump : String) (now : Int) :
    List DetectedError :=
  if ui_dump = "" then []
  else
    let app_state := detect_app_state ui_dump
    let expected_elements := get_expected_elements_for_state d app_state ui_dump
    let missing := (expected_elements.filter (fun el => !containsSub ui_dump el)).map
      (fun el =>
        { error_type := "missing_ui_element"
          severity := .low
          message := "Missing UI element: " ++ el ++ " (state: " ++ app_state ++ ")"
          details := [("missing_element", .str el),
                      ("app_state", .str app_state),
                      ("expected_elements", .arr (expected_elements.map .str))]
          timestamp := now
          source := "ui" })
    let focusErrors :=
      if d.ui_config.focus_enabled &&
          !(d.ui_config.focus_ignore_in_states.contains app_state) &&
          !containsSub ui_dump "focused=\"true\"" then
        [{ error_type := "no_focused_element"
           severity := .low
           message := "No focused UI element detected (state: " ++ app_state ++ ")"
           details := [("app_state", .str app_state)]
           timestamp := now
           source := "ui" }]
      else []
    missing ++ focusErrors

/-- ErrorDetector.add_detected_error: append, then trim to the last
max_history_size entries when over the cap. -/
def add_detected_error (d : ErrorDetector) (e : DetectedError) : ErrorDetector :=
  if d.max_history_size < (d.error_history ++ [e]).length then
    { d with error_history := pySliceLast (d.error_history ++ [e]) d.max_history_size }
  else { d with error_history := d.error_history ++ [e] }

/-- ErrorDetector.get_recent_errors: entries whose timestamp is at least
now minus the window in minutes. -/
def get_recent_errors (d : ErrorDetector) (now minutes : Int) : List DetectedError :=
  d.error_history.filter (fun e => decide (now - minutes * 60 ≤ e.timestamp))

/-- ErrorDetector.should_trigger_autofix. -/
def should_trigger_autofix (d : ErrorDetector) (e : DetectedError) (now : Int) : Bool :=
  match e.severity with
  | .critical => true
  | .high => true
  | .medium =>
      decide (3 ≤ ((get_recent_errors d now 10).filter
        (fun x => x.error_type == e.error_type)).length)
  | .low => false

/-- Result values of auto_fixer.FixResult (the member with Python value
"partial" is named partialResult here). -/
inductive FixResult where
  | success
  | failed
  | partialResult
  | skipped
deriving DecidableEq

/-- String value of a FixResult member, as in the Python enum. -/
def FixResult.value : FixResult → String
  | .success => "success"
  | .failed => "failed"
  | .partialResult => "partial"
  | .skipped => "skipped"

/-- FixAction record of auto_fixer.py. -/
structure FixAction where
  action_name : String
  result : FixResult
  message : String
  details : List (String × Value)
  timestamp : Int
  duration : Int

/-- Sets key k to v in an insertion-ordered association list, appending a new
key at the end; models Python dict assignment. -/
def dictSet {β : Type} (l : List (String × β)) (k : String) (v : β) :
    List (String × β) :=
  match l with
  | [] => [(k, v)]
  | (k0, v0) :: rest => if k0 == k then (k, v) :: rest else (k0, v0) :: dictSet rest k v

/-- Mutable state of auto_fixer.AutoFixer. A fix strategy (a device
interaction script) is modelled by its observable result; Except.error models
an exception escaping the strategy. -/
structure AutoFixer where
  fix_strategies : String → Option (DetectedError → Except String FixResult)
  fix_history : List FixAction
  max_fix_attempts : Nat
  fix_cooldown : Int
  last_fix_times : List (String × Int)

/-- Error kinds registered by the strategy table of auto_fixer.py; note that
permission_error and resource_error have no registered strategy. -/
def fix_strategy_kinds : List String :=
  ["app_crash", "anr", "out_of_memory", "network_error", "webview_error",
   "profile_error", "preferences_error", "focus_error", "lifecycle_error",
   "app_not_running", "high_memory_usage", "potential_memory_leak",
   "missing_ui_element", "no_focused_element", "unexpected_activity"]

/-- Strategy table built in AutoFixer.__init__, with the device behaviour of
each registered strategy supplied as a parameter. -/
def initFixStrategies
    (behavior : String → DetectedError → Except String FixResult) :
    String → Option (DetectedError → Except String FixResult) :=
  fun kind => if fix_strategy_kinds.contains kind then some (behavior kind) else none

/-- Fresh fixer as built by AutoFixer.__init__. -/
def initAutoFixer (behavior : String → DetectedError → Except String FixResult) :
    AutoFixer :=
  { fix_strategies := initFixStrategies behavior
    fix_history := []
    max_fix_attempts := 3
    fix_cooldown := 60
    last_fix_times := [] }

/-- AutoFixer.can_attempt_fix: the kind is out of cooldown. A kind never
attempted reads timestamp 0 (the Python .get default). -/
def can_attempt_fix (f : AutoFixer) (error_type : String) (now : Int) : Bool :=
  decide (f.fix_cooldown ≤ now - ((f.last_fix_times.lookup error_type).getD 0))

/-- AutoFixer.apply_fix. tCheck, tStart and tEnd are the successive
time.time() readings (cooldown check, start of the attempt, end of the
attempt). On a skip nothing changes; on a normal strategy return the outcome
is appended and the cooldown timestamp is set to tStart; on a strategy
exception a failed outcome is appended and the cooldown timestamp is left
unchanged. -/
def apply_fix (f : AutoFixer) (e : DetectedError) (tCheck tStart tEnd : Int) :
    Option FixAction × AutoFixer :=
  if !can_attempt_fix f e.error_type tCheck then (none, f)
  else
    match f.fix_strategies e.error_type with
    | none => (none, f)
    | some strategy =>
      match strategy e with
      | .ok result =>
        let fix_action : FixAction :=
          { action_name := "fix_" ++ e.error_type
            result := result
            message := "Fix attempt for " ++ e.error_type
            details := [("original_error", e.to_dict)]
            timestamp := tStart
            duration := tEnd - tStart }
        (some fix_action,
         { f with fix_history := f.fix_history ++ [fix_action]
                  last_fix_times := dictSet f.last_fix_times e.error_type tStart })
      | .error msg =>
        let fix_action : FixAction :=
          { action_name := "fix_" ++ e.error_type
            result := .failed
            message := "Fix failed: " ++ msg
            details := [("error", .str msg), ("original_error", e.to_dict)]
            timestamp := tStart
            duration := tEnd - tStart }
        (some fix_action,
         { f with fix_history := f.fix_history ++ [fix_action] })

/-- Accumulates the per-action totals of AutoFixer.get_fix_statistics. -/
def countFixType (acc : List (String × (Nat × Nat))) (fix : FixAction) :
    List (String × (Nat × Nat)) :=
  let cur := (acc.lookup fix.action_name).getD (0, 0)
  dictSet acc fix.action_name
    (cur.1 + 1, cur.2 + (if fix.result == FixResult.success then 1 else 0))

/-- AutoFixer.get_fix_statistics, as the Python dict it returns. -/
def get_fix_statistics (f : AutoFixer) (now : Int) : Value :=
  if f.fix_history.isEmpty then .dict [("total_fixes", .num 0)]
  else
    let successful := f.fix_history.filter (fun a => a.result == FixResult.success)
    let success_rate : Rat := (successful.length : Rat) / (f.fix_history.length : Rat) * 100
    let fix_types := f.fix_history.foldl countFixType []
    let recent := f.fix_history.filter (fun a => decide (now - 3600 ≤ a.timestamp))
    .dict [("total_fixes", .num (f.fix_history.length : Rat)),
           ("success_rate", .num success_rate),
           ("fix_types", .dict (fix_types.map (fun kv =>
              (kv.1, Value.dict [("total", .num (kv.2.1 : Rat)),
                                 ("successful", .num (kv.2.2 : Rat))])))),
           ("recent_fixes", .num (recent.length : Rat))]

/-- MonitoringStats record of monitor.py. -/
structure MonitoringStats where
  start_time : Int
  total_errors_detected : Nat
  total_fixes_attempted : Nat
  successful_fixes : Nat
  failed_fixes : Nat
  current_status : String
  last_error_time : Option Int
  last_fix_time : Option Int

/-- State of monitor.AppMonitor relevant to the control loop. The three
asyncio tasks are modelled by an optional cancellation flag (none when the
task was never created, some b with b true once cancelled). -/
structure AppMonitor where
  config_max_fix_attempts_per_hour : Nat
  config_enable_auto_fix : Bool
  is_running : Bool
  stats : MonitoringStats
  error_detector : ErrorDetector
  auto_fixer : AutoFixer
  logcat_task : Option Bool
  health_check_task : Option Bool
  maintenance_task : Option Bool
  logcat_buffer : List (Int × String)
  max_buffer_size : Nat

/-- AppMonitor._can_attempt_fix: global rate limit over the trailing hour of
the remediation history. -/
def monitor_can_attempt_fix (m : AppMonitor) (now : Int) : Bool :=
  decide ((m.auto_fixer.fix_history.filter
      (fun a => decide (now - 3600 ≤ a.timestamp))).length
    < m.config_max_fix_attempts_per_hour)

/-- AppMonitor._attempt_auto_fix: on a rate-limit rejection nothing changes;
otherwise the attempt counter and last_fix_time are updated before apply_fix
runs, and its outcome (when any) bumps the success or failure counter. -/
def attempt_auto_fix (m : AppMonitor) (e : DetectedError)
    (now tCheck tStart tEnd : Int) : AppMonitor :=
  if !monitor_can_attempt_fix m now then m
  else
    let stats1 := { m.stats with
      total_fixes_attempted := m.stats.total_fixes_attempted + 1
      last_fix_time := some now }
    let res := apply_fix m.auto_fixer e tCheck tStart tEnd
    let stats2 :=
      match res.1 with
      | some fa =>
          if fa.result == FixResult.success then
            { stats1 with successful_fixes := stats1.successful_fixes + 1 }
          else
            { stats1 with failed_fixes := stats1.failed_fixes + 1 }
      | none => stats1
    { m with stats := stats2, auto_fixer := res.2 }

/-- AppMonitor._handle_detected_error: count the error, append it to the
classifier history, then consult the escalation policy (on the post-append
history) and, when admitted and auto-fix is enabled, attempt remediation. -/
def handle_detected_error (m : AppMonitor) (e : DetectedError)
    (now tCheck tStart tEnd : Int) : AppMonitor :=
  let stats1 := { m.stats with
    total_errors_detected := m.stats.total_errors_detected + 1
    last_error_time := some e.timestamp }
  let det1 := add_detected_error m.error_detector e
  let m1 := { m with stats := stats1, error_detector := det1 }
  if m.config_enable_auto_fix && should_trigger_autofix det1 e now then
    attempt_auto_fix m1 e now tCheck tStart tEnd
  else m1

/-- AppMonitor.stop: clear the running flag, set the status to stopping, and
cancel whichever tasks exist. The status stopped is not assigned here. -/
def stop (m : AppMonitor) : AppMonitor :=
  { m with
    is_running := false
    stats := { m.stats with current_status := "stopping" }
    logcat_task := m.logcat_task.map (fun _ => true)
    health_check_task := m.health_check_task.map (fun _ => true)
    maintenance_task := m.maintenance_task.map (fun _ => true) }

/-- AppMonitor._cleanup, as its effect on the monitor state. Its try block
shuts the worker pool down with executor.shutdown(wait=True), writes the
final report (which swallows its own failures internally), and then submits
the transport disconnect through run_in_executor on the already-shut-down
pool; that call raises RuntimeError (cannot schedule new futures after
shutdown), the except handler catches it, and so the assignment
current_status = stopped placed after the disconnect is dead code: the
monitor state is left unchanged. -/
def cleanup (m : AppMonitor) : AppMonitor := m

/-- AppMonitor._cleanup_logs: trim the classifier history to 500, the
remediation history to 200 and the logcat buffer to max_buffer_size. -/
def cleanup_logs (m : AppMonitor) : AppMonitor :=
  let det :=
    if 500 < m.error_detector.error_history.length then
      { m.error_detector with
        error_history := pySliceLast m.error_detector.error_history 500 }
    else m.error_detector
  let fixer :=
    if 200 < m.auto_fixer.fix_history.length then
      { m.auto_fixer with fix_history := pySliceLast m.auto_fixer.fix_history 200 }
    else m.auto_fixer
  let buf :=
    if m.max_buffer_size < m.logcat_buffer.length then
      pySliceLast m.logcat_buffer m.max_buffer_size
    else m.logcat_buffer
  { m with error_detector := det, auto_fixer := fixer, logcat_buffer := buf }

/-! Shared concrete fixtures for evaluating the model on explicit inputs. -/

/-- Strategy behaviour whose every attempt returns a success result. -/
def okBehavior : String → DetectedError → Except String FixResult :=
  fun _ _ => .ok FixResult.success

/-- Strategy behaviour whose every attempt raises an exception. -/
def boomBehavior : String → DetectedError → Except String FixResult :=
  fun _ _ => .error "boom"

/-- Concrete critical app_crash error at a given detection time. -/
def crashErrorAt (t : Int) : DetectedError :=
  { error_type := "app_crash"
    severity := .critical
    message := "App Crash detected"
    details := []
    timestamp := t
    source := "logcat" }

/-- Concrete medium-severity error of a given kind at a given time. -/
def mediumErrorAt (kind : String) (t : Int) : DetectedError :=
  { error_type := kind
    severity := .medium
    message := "Network Error detected"
    details := []
    timestamp := t
    source := "logcat" }

/-- Fresh detector with a preset classifier history. -/
def detectorWith (hist : List DetectedError) : ErrorDetector :=
  { initErrorDetector defaultUIConfig [] with error_history := hist }

/-- Concrete successful fix outcome recorded at a given time. -/
def fixActionAt (t : Int) : FixAction :=
  { action_name := "fix_app_crash"
    result := FixResult.success
    message := "Fix attempt for app_crash"
    details := []
    timestamp := t
    duration := 1 }

/-- Concrete monitoring statistics in the monitoring phase. -/
def baseStats : MonitoringStats :=
  { start_time := 0
    total_errors_detected := 0
    total_fixes_attempted := 0
    successful_fixes := 0
    failed_fixes := 0
    current_status := "monitoring"
    last_error_time := none
    last_fix_time := none }

/-- Concrete running monitor over a given fixer and rate-limit ceiling. -/
def monitorWith (fixer : AutoFixer) (maxPerHour : Nat) : AppMonitor :=
  { config_max_fix_attempts_per_hour := maxPerHour
    config_enable_auto_fix := true
    is_running := true
    stats := baseStats
    error_detector := initErrorDetector defaultUIConfig []
    auto_fixer := fixer
    logcat_task := some false
    health_check_task := some false
    maintenance_task := some false
    logcat_buffer := []
    max_buffer_size := 1000 }

/-- Detector with one always-firing rule, for pre-filter evaluation. -/
def sampleDetector : ErrorDetector :=
  initErrorDetector defaultUIConfig
    [{ name := "app_crash", severity := .critical, match_fn := fun _ => some [] }]

/-! Helper lemmas about the dictionary and slicing models. -/

/-- Looking up a key just set returns the value set. -/
theorem dictSet_lookup {β : Type} (l : List (String × β)) (k : String) (v : β) :
    (dictSet l k v).lookup k = some v := by
  induction l with
  | nil => simp [dictSet, List.lookup]
  | cons hd tl ih =>
    by_cases h : hd.1 == k
    · simp only [dictSet]
      rw [show (hd.1 == k) = true from h]
      simp [List.lookup]
    · simp only [dictSet]
      rw [show (hd.1 == k) = false from Bool.eq_false_iff.2 (by simpa using h)]
      simp only [List.lookup]
      rw [show (k == hd.1) = false from Bool.eq_false_iff.2 (by
        intro hk
        exact h (by simpa using (BEq.symm hk)))]
      exact ih

/-- Length of the Python slice l[-k:]. -/
theorem pySliceLast_length {α : Type} (l : List α) (k : Nat) :
    (pySliceLast l k).length = if k = 0 then l.length else l.length - (l.length - k) := by
  unfold pySliceLast
  split <;> simp

/-! Claim theorems. -/

/-- C7: a log line containing neither the package identifier nor any keyword
of the relevance set produces no errors in analyze_logcat_line. -/
theorem c7_prefilter (d : ErrorDetector) (line : String) (now : Int)
    (h : lineRelevant d line = false) :
    analyze_logcat_line d line now = [] := by
  simp [analyze_logcat_line, h]

/-- Witness for c7_prefilter at a concrete irrelevant line and a detector with
an always-firing rule. -/
theorem c7_prefilter_witness :
    lineRelevant sampleDetector "01-01 D WindowManager: routine check ok" = false ∧
    analyze_logcat_line sampleDetector "01-01 D WindowManager: routine check ok" 1000000 = [] := by
  refine ⟨by decide, c7_prefilter _ _ _ (by decide)⟩

/-- C10: an empty UI dump short-circuits analyze_ui_dump, so no
missing_ui_element and no no_focused_element error is emitted. -/
theorem c10_empty_ui_dump (d : ErrorDetector) (now : Int) :
    analyze_ui_dump d "" now = [] := by
  simp [analyze_ui_dump]

/-- C8: app-state inference returns one of the five states, checked in the
priority order settings, loading, error_welcome, browsing, unknown; any dump
with a settings marker infers settings, whatever else it contains. -/
theorem c8_app_state_priority (ui_dump : String) :
    detect_app_state ui_dump ∈ ["settings", "loading", "error_welcome", "browsing", "unknown"]
    ∧ ((containsSub ui_dump "SettingsActivity" || containsSub ui_dump "ProfilesActivity" ||
          containsSub ui_dump "ProfileEditActivity") = true →
        detect_app_state ui_dump = "settings")
    ∧ ((containsSub ui_dump "SettingsActivity" || containsSub ui_dump "ProfilesActivity" ||
          containsSub ui_dump "ProfileEditActivity") = false →
        (containsSub (strLower ui_dump) "loading" ||
          containsSub (strLower ui_dump) "progress") = true →
        detect_app_state ui_dump = "loading")
    ∧ ((containsSub ui_dump "SettingsActivity" || containsSub ui_dump "ProfilesActivity" ||
          containsSub ui_dump "ProfileEditActivity") = false →
        (containsSub (strLower ui_dump) "loading" ||
          containsSub (strLower ui_dump) "progress") = false →
        (containsSub ui_dump "welcomeContainer" &&
          !containsSub ui_dump "visibility=\"gone\"") = true →
        detect_app_state ui_dump = "error_welcome")
    ∧ ((containsSub ui_dump "SettingsActivity" || containsSub ui_dump "ProfilesActivity" ||
          containsSub ui_dump "ProfileEditActivity") = false →
        (containsSub (strLower ui_dump) "loading" ||
          containsSub (strLower ui_dump) "progress") = false →
        (containsSub ui_dump "welcomeContainer" &&
          !containsSub ui_dump "visibility=\"gone\"") = false →
        (containsSub ui_dump "webViewCard" &&
          !containsSub ui_dump "visibility=\"gone\"") = true →
        detect_app_state ui_dump = "browsing")
    ∧ ((containsSub ui_dump "SettingsActivity" || containsSub ui_dump "ProfilesActivity" ||
          containsSub ui_dump "ProfileEditActivity") = false →
        (containsSub (strLower ui_dump) "loading" ||
          containsSub (strLower ui_dump) "progress") = false →
        (containsSub ui_dump "welcomeContainer" &&
          !containsSub ui_dump "visibility=\"gone\"") = false →
        (containsSub ui_dump "webViewCard" &&
          !containsSub ui_dump "visibility=\"gone\"") = false →
        detect_app_state ui_dump = "unknown") := by
  refine ⟨?_, ?_, ?_, ?_, ?_, ?_⟩
  · unfold detect_app_state
    split_ifs <;> simp
  all_goals
    intros
    unfold detect_app_state
    split_ifs <;> simp_all

/-- Witness for c8_app_state_priority: a dump holding both a settings marker
and the browsing marker infers settings. -/
theorem c8_app_state_priority_witness :
    detect_app_state "SettingsActivity webViewCard focused=\"true\"" = "settings" := by
  exact (c8_app_state_priority _).2.1 (by decide)

/-- C3: after the handler appends the error to the classifier history, the
escalation decision is: critical and high always escalate, a medium error
escalates exactly when at least three same-kind errors (this one included) lie
within the last ten minutes, and low never escalates. -/
theorem c3_escalation (d : ErrorDetector) (e : DetectedError) (now : Int)
    (hcap : d.error_history.length + 1 ≤ d.max_history_size)
    (hts : now - 600 ≤ e.timestamp) :
    ((e.severity = .critical ∨ e.severity = .high) →
        should_trigger_autofix (add_detected_error d e) e now = true)
    ∧ (e.severity = .medium →
        (should_trigger_autofix (add_detected_error d e) e now = true ↔
          3 ≤ (d.error_history.filter
            (fun x => decide (now - 600 ≤ x.timestamp) && x.error_type == e.error_type)).length + 1))
    ∧ (e.severity = .low →
        should_trigger_autofix (add_detected_error d e) e now = false) := by
  have hc : ¬ d.max_history_size < (d.error_history ++ [e]).length := by
    simp only [List.length_append, List.length_cons, List.length_nil]
    omega
  have hist_eq : (add_detected_error d e).error_history = d.error_history ++ [e] := by
    unfold add_detected_error
    rw [if_neg hc]
  refine ⟨?_, ?_, ?_⟩
  · rintro (h | h) <;> (unfold should_trigger_autofix; rw [h])
  · intro h
    unfold should_trigger_autofix
    rw [h]
    rw [decide_eq_true_iff]
    have key : ((get_recent_errors (add_detected_error d e) now 10).filter
        (fun x => x.error_type == e.error_type)).length
        = (d.error_history.filter
            (fun x => decide (now - 600 ≤ x.timestamp) && x.error_type == e.error_type)).length + 1 := by
      unfold get_recent_errors
      rw [hist_eq, List.filter_filter, List.filter_append]
      have hts' : now ≤ e.timestamp + 600 := by omega
      simp [hts', Bool.and_comm]
    rw [key]
  · intro h
    unfold should_trigger_autofix
    rw [h]

/-- Witness for c3_escalation: the third of three same-kind medium errors
within ten minutes escalates; the second of two does not. -/
theorem c3_escalation_witness :
    should_trigger_autofix
      (add_detected_error
        (detectorWith [mediumErrorAt "network_error" 999900, mediumErrorAt "network_error" 999950])
        (mediumErrorAt "network_error" 1000000))
      (mediumErrorAt "network_error" 1000000) 1000000 = true
    ∧ should_trigger_autofix
      (add_detected_error
        (detectorWith [mediumErrorAt "network_error" 999950])
        (mediumErrorAt "network_error" 1000000))
      (mediumErrorAt "network_error" 1000000) 1000000 = false := by
  constructor
  · exact ((c3_escalation _ _ _ (by decide) (by decide)).2.1 rfl).2 (by decide)
  · have h := (c3_escalation
      (detectorWith [mediumErrorAt "network_error" 999950])
      (mediumErrorAt "network_error" 1000000) 1000000 (by decide) (by decide)).2.1 rfl
    refine Bool.eq_false_iff.2 (fun hb => ?_)
    have h2 := h.1 hb
    revert h2
    decide

/-- C4: when the remediation attempts recorded within the trailing hour have
reached the configured ceiling, _attempt_auto_fix leaves the monitor
unchanged and the Remediator is not invoked. -/
theorem c4_rate_limit (m : AppMonitor) (e : DetectedError) (now tCheck tStart tEnd : Int)
    (h : m.config_max_fix_attempts_per_hour ≤
      (m.auto_fixer.fix_history.filter (fun a => decide (now - 3600 ≤ a.timestamp))).length) :
    attempt_auto_fix m e now tCheck tStart tEnd = m := by
  have hb : monitor_can_attempt_fix m now = false := by
    simp only [monitor_can_attempt_fix, decide_eq_false_iff_not, Nat.not_lt]
    exact h
  simp [attempt_auto_fix, hb]

/-- Detector whose single-slot previous memory sample is preset. -/
def leakDetectorWith (last : Int) : ErrorDetector :=
  { initErrorDetector defaultUIConfig [] with last_memory_usage := some last }

/-- Fixer whose remediation history already holds 200 outcomes. -/
def fixer200 : AutoFixer :=
  { initAutoFixer okBehavior with fix_history := List.replicate 200 (fixActionAt 1000000) }

/-- Concrete monitor used for the lifecycle claims. -/
def baseMonitor : AppMonitor := monitorWith (initAutoFixer okBehavior) 10

/-- The float comparison of the leak check agrees with an integer comparison. -/
theorem leakCond_iff (last total : Int) : leakCond last total = true ↔ 3 * last < 2 * total := by
  unfold leakCond
  rw [decide_eq_true_iff]
  rw [show (1.5 : Rat) = 3 / 2 by norm_num]
  constructor
  · intro h
    have h3 : ((3 * last : Int) : Rat) < ((2 * total : Int) : Rat) := by
      push_cast
      linarith
    exact_mod_cast h3
  · intro h
    have h3 : ((3 * last : Int) : Rat) < ((2 * total : Int) : Rat) := by exact_mod_cast h
    push_cast at h3
    linarith

/-- Witness for c4_rate_limit: ceiling 2 and two attempts already within the
hour, so a third eligible error changes nothing. -/
theorem c4_rate_limit_witness :
    attempt_auto_fix
      (monitorWith { initAutoFixer okBehavior with
        fix_history := [fixActionAt 999000, fixActionAt 999500] } 2)
      (crashErrorAt 1000000) 1000000 1000000 1000000 1000001 =
    monitorWith { initAutoFixer okBehavior with
      fix_history := [fixActionAt 999000, fixActionAt 999500] } 2 := by
  exact c4_rate_limit _ _ _ _ _ _ (by decide)

/-- C1 counterexample: a dispatched attempt (cooldown clear, strategy
registered) whose strategy raises an exception produces a failed outcome and
appends it to the history, yet the cooldown table stays empty, contradicting
the claim that the timestamp is updated on exception failures too. -/
theorem c1_counterexample :
    (apply_fix (initAutoFixer boomBehavior) (crashErrorAt 1000000) 1000000 1000000 1000001).1.isSome = true
    ∧ (apply_fix (initAutoFixer boomBehavior) (crashErrorAt 1000000) 1000000 1000000 1000001).2.fix_history.length = 1
    ∧ (apply_fix (initAutoFixer boomBehavior) (crashErrorAt 1000000) 1000000 1000000 1000001).2.last_fix_times = [] := by
  refine ⟨rfl, rfl, rfl⟩

/-- C1 (amended): a dispatched attempt whose strategy returns normally
updates the cooldown timestamp (success and failed result alike) and appends
to history; when the strategy raises an exception the failed outcome is still
appended but the cooldown timestamp is left unchanged; on a skip nothing
changes at all. -/
theorem c1_cooldown_update (f : AutoFixer) (e : DetectedError)
    (strategy : DetectedError → Except String FixResult) (tCheck tStart tEnd : Int) :
    (can_attempt_fix f e.error_type tCheck = false →
        apply_fix f e tCheck tStart tEnd = (none, f))
    ∧ (can_attempt_fix f e.error_type tCheck = true →
        f.fix_strategies e.error_type = some strategy →
        ((∀ r, strategy e = .ok r →
            ((apply_fix f e tCheck tStart tEnd).2.last_fix_times.lookup e.error_type = some tStart
              ∧ (apply_fix f e tCheck tStart tEnd).2.fix_history.length = f.fix_history.length + 1))
          ∧ (∀ msg, strategy e = .error msg →
            ((apply_fix f e tCheck tStart tEnd).2.last_fix_times = f.last_fix_times
              ∧ (apply_fix f e tCheck tStart tEnd).2.fix_history.length = f.fix_history.length + 1)))) := by
  constructor
  · intro h
    simp [apply_fix, h]
  · intro hc hs
    constructor
    · intro r hr
      refine ⟨?_, ?_⟩ <;> simp [apply_fix, hc, hs, hr, dictSet_lookup]
    · intro msg hr
      refine ⟨?_, ?_⟩ <;> simp [apply_fix, hc, hs, hr]

/-- Witness for c1_cooldown_update: a dispatched successful attempt at time
1000000 records cooldown timestamp 1000000 and appends one history entry. -/
theorem c1_cooldown_update_witness :
    (apply_fix (initAutoFixer okBehavior) (crashErrorAt 1000000) 1000000 1000000 1000001).2.last_fix_times.lookup "app_crash" = some 1000000
    ∧ (apply_fix (initAutoFixer okBehavior) (crashErrorAt 1000000) 1000000 1000000 1000001).2.fix_history.length = 1 := by
  exact ((c1_cooldown_update (initAutoFixer okBehavior) (crashErrorAt 1000000)
    (okBehavior "app_crash") 1000000 1000000 1000001).2 (by decide) rfl).1
    FixResult.success rfl

/-- C2 counterexample: two requests for the same kind 30 seconds apart where
the first attempt raised an exception (so no cooldown timestamp was
recorded): the second request is dispatched anyway, returns an outcome and
appends a second history entry, contradicting the claim. -/
theorem c2_counterexample :
    (apply_fix (apply_fix (initAutoFixer boomBehavior) (crashErrorAt 1000000) 1000000 1000000 1000001).2
        (crashErrorAt 1000030) 1000030 1000030 1000031).1.isSome = true
    ∧ (apply_fix (apply_fix (initAutoFixer boomBehavior) (crashErrorAt 1000000) 1000000 1000000 1000001).2
        (crashErrorAt 1000030) 1000030 1000030 1000031).2.fix_history.length = 2 := by
  refine ⟨rfl, rfl⟩

/-- C2 (amended): when the first request was dispatched and its strategy
returned normally (recording the cooldown timestamp), a second request for
the same kind within 60 seconds returns no outcome, appends no history entry,
leaves the fixer state unchanged and hence leaves the history-derived fix
statistics unchanged. -/
theorem c2_cooldown_skip (f : AutoFixer) (e e2 : DetectedError)
    (strategy : DetectedError → Except String FixResult) (r : FixResult)
    (t1c t1s t1e t2c t2s t2e : Int)
    (hcool : f.fix_cooldown = 60)
    (hkind : e2.error_type = e.error_type)
    (hcan : can_attempt_fix f e.error_type t1c = true)
    (hstrat : f.fix_strategies e.error_type = some strategy)
    (hok : strategy e = .ok r)
    (hwin : t2c - t1s < 60) :
    apply_fix (apply_fix f e t1c t1s t1e).2 e2 t2c t2s t2e =
      (none, (apply_fix f e t1c t1s t1e).2)
    ∧ get_fix_statistics (apply_fix (apply_fix f e t1c t1s t1e).2 e2 t2c t2s t2e).2 t2e =
      get_fix_statistics (apply_fix f e t1c t1s t1e).2 t2e := by
  have hstate : (apply_fix f e t1c t1s t1e).2.last_fix_times =
      dictSet f.last_fix_times e.error_type t1s
      ∧ (apply_fix f e t1c t1s t1e).2.fix_cooldown = f.fix_cooldown := by
    refine ⟨?_, ?_⟩ <;> simp [apply_fix, hcan, hstrat, hok]
  have hskip : can_attempt_fix (apply_fix f e t1c t1s t1e).2 e2.error_type t2c = false := by
    unfold can_attempt_fix
    rw [hstate.2, hcool, hkind, hstate.1, dictSet_lookup]
    simp only [Option.getD_some]
    rw [decide_eq_false_iff_not]
    omega
  have hmain : apply_fix (apply_fix f e t1c t1s t1e).2 e2 t2c t2s t2e =
      (none, (apply_fix f e t1c t1s t1e).2) := by
    generalize (apply_fix f e t1c t1s t1e).2 = f1 at hskip ⊢
    simp [apply_fix, hskip]
  exact ⟨hmain, by rw [hmain]⟩

/-- Witness for c2_cooldown_skip: a successful attempt at time 1000000 and a
second request 30 seconds later, which is skipped with the state unchanged. -/
theorem c2_cooldown_skip_witness :
    apply_fix (apply_fix (initAutoFixer okBehavior) (crashErrorAt 1000000) 1000000 1000000 1000001).2
        (crashErrorAt 1000030) 1000030 1000030 1000031 =
      (none, (apply_fix (initAutoFixer okBehavior) (crashErrorAt 1000000) 1000000 1000000 1000001).2) := by
  exact (c2_cooldown_skip (initAutoFixer okBehavior) (crashErrorAt 1000000) (crashErrorAt 1000030)
    (okBehavior "app_crash") FixResult.success 1000000 1000000 1000001 1000030 1000030 1000031
    rfl rfl (by decide) rfl rfl (by decide)).1

/-- Length of the remediation history after a dispatched attempt whose
strategy returned normally. -/
theorem apply_fix_ok_history (f : AutoFixer) (e : DetectedError)
    (strategy : DetectedError → Except String FixResult) (r : FixResult) (tc ts te : Int)
    (hc : can_attempt_fix f e.error_type tc = true)
    (hs : f.fix_strategies e.error_type = some strategy)
    (hr : strategy e = .ok r) :
    (apply_fix f e tc ts te).2.fix_history.length = f.fix_history.length + 1 := by
  simp [apply_fix, hc, hs, hr]

/-- C5 counterexample: with 200 outcomes already recorded, a dispatched
attempt appends a 201st entry, so the remediation history exceeds its cap of
200 right after the append. -/
theorem c5_counterexample :
    (apply_fix fixer200 (crashErrorAt 1000000) 1000000 1000000 1000001).2.fix_history.length = 201 := by
  rw [apply_fix_ok_history fixer200 (crashErrorAt 1000000) (okBehavior "app_crash")
    FixResult.success 1000000 1000000 1000001 (by decide) rfl rfl]
  have hlen : fixer200.fix_history.length = 200 := by
    show (List.replicate 200 (fixActionAt 1000000)).length = 200
    rw [List.length_replicate]
  rw [hlen]

set_option maxRecDepth 4000 in
/-- C5 (amended): the classifier history cap is enforced by every append (for
any positive configured cap); the remediation history cap of 200 is enforced
only by the periodic maintenance trim, which leaves at most 200 entries — an
individual append can exceed 200 between maintenance runs. -/
theorem c5_caps (d : ErrorDetector) (e : DetectedError) (m : AppMonitor)
    (h : 1 ≤ d.max_history_size) :
    (add_detected_error d e).error_history.length ≤ d.max_history_size
    ∧ (cleanup_logs m).auto_fixer.fix_history.length ≤ 200 := by
  constructor
  · unfold add_detected_error
    split
    · next hlt =>
      show (pySliceLast (d.error_history ++ [e]) d.max_history_size).length ≤ d.max_history_size
      rw [pySliceLast_length]
      rw [if_neg (by omega)]
      omega
    · next hge =>
      show (d.error_history ++ [e]).length ≤ d.max_history_size
      simp only [List.length_append, List.length_cons, List.length_nil] at hge ⊢
      omega
  · have hfix : (cleanup_logs m).auto_fixer =
        (if 200 < m.auto_fixer.fix_history.length then
          { m.auto_fixer with fix_history := pySliceLast m.auto_fixer.fix_history 200 }
        else m.auto_fixer) := rfl
    rw [hfix]
    split
    · next h2 =>
      show (pySliceLast m.auto_fixer.fix_history 200).length ≤ 200
      rw [pySliceLast_length]
      rw [if_neg (by omega)]
      omega
    · next h2 =>
      omega

/-- Witness for c5_caps at a fresh detector (cap 1000) and a concrete monitor. -/
theorem c5_caps_witness :
    (add_detected_error (initErrorDetector defaultUIConfig []) (crashErrorAt 0)).error_history.length ≤ 1000
    ∧ (cleanup_logs baseMonitor).auto_fixer.fix_history.length ≤ 200 := by
  exact c5_caps (initErrorDetector defaultUIConfig []) (crashErrorAt 0) baseMonitor (by decide)

/-- C6 counterexample: stopping twice leaves the status stopping, not
stopped; even running the cleanup path afterwards leaves it stopping, since
the stopped assignment in the cleanup is unreachable. -/
theorem c6_counterexample :
    (stop (stop baseMonitor)).stats.current_status = "stopping"
    ∧ (stop (stop baseMonitor)).stats.current_status ≠ "stopped"
    ∧ (cleanup (stop (stop baseMonitor))).stats.current_status = "stopping" := by
  refine ⟨rfl, by decide, rfl⟩

/-- C6 (amended): stop is idempotent on the monitor state (so a second stop
changes nothing and raises nothing) and leaves the status stopping, not
stopped; cleanup leaves the monitor state unchanged (its stopped assignment
is dead code), so from any status other than stopped neither stop nor
cleanup ever produces the stopped status — the no-transition-out-of-stopped
invariant holds only vacuously. -/
theorem c6_stop_idempotent (m : AppMonitor) :
    stop (stop m) = stop m
    ∧ (stop m).stats.current_status = "stopping"
    ∧ cleanup m = m
    ∧ (m.stats.current_status ≠ "stopped" →
        (stop m).stats.current_status ≠ "stopped"
        ∧ (cleanup m).stats.current_status ≠ "stopped") := by
  refine ⟨?_, rfl, rfl, ?_⟩
  · cases hl : m.logcat_task <;> cases hh : m.health_check_task <;>
      cases hmt : m.maintenance_task <;> simp [stop, hl, hh, hmt]
  · intro h
    refine ⟨?_, h⟩
    show ("stopping" : String) ≠ "stopped"
    decide

/-- Witness for c6_stop_idempotent at a concrete monitoring-phase monitor. -/
theorem c6_stop_idempotent_witness :
    (stop baseMonitor).stats.current_status ≠ "stopped"
    ∧ (cleanup baseMonitor).stats.current_status ≠ "stopped" := by
  exact (c6_stop_idempotent baseMonitor).2.2.2 (by decide)

/-- C9 counterexample: a previous sample of 0 KB with a new sample of
160000 KB satisfies the claimed emission condition (160000 exceeds 1.5 times
0), yet the analysis raises ZeroDivisionError instead of emitting the error. -/
theorem c9_counterexample :
    analyze_memory_usage (leakDetectorWith 0) [("total_pss_kb", 160000)] 1000000 =
      .error "ZeroDivisionError: division by zero" := by
  have hl : leakCond 0 160000 = true := (leakCond_iff 0 160000).2 (by decide)
  simp [analyze_memory_usage, leakDetectorWith, initErrorDetector, hl]

/-- C9 (amended): with a positive previous sample, a new sample emits the
potential_memory_leak error (high severity, carrying previous value, current
value and percentage delta) exactly when it exceeds 1.5 times the previous
sample; with a zero previous sample and a larger new sample the code raises
ZeroDivisionError instead (see the counterexample). -/
theorem c9_memory_leak (d : ErrorDetector) (now last total : Int)
    (hlast : d.last_memory_usage = some last)
    (hpos : 0 < last) :
    (3 * last < 2 * total →
      analyze_memory_usage d [("total_pss_kb", total)] now =
        .ok ((if 500000 < total then [highMemErrorAt total now] else []) ++
              [memLeakErrorAt last total now],
             { d with last_memory_usage := some total }))
    ∧ (¬ 3 * last < 2 * total →
      analyze_memory_usage d [("total_pss_kb", total)] now =
        .ok ((if 500000 < total then [highMemErrorAt total now] else []),
             { d with last_memory_usage := some total })) := by
  constructor
  · intro h
    have hl : leakCond last total = true := (leakCond_iff _ _).2 h
    have hz : ¬ (last = 0) := by omega
    simp [analyze_memory_usage, hlast, hl, hz]
  · intro h
    have hl : leakCond last total = false := by
      rw [Bool.eq_false_iff]
      intro hb
      exact h ((leakCond_iff _ _).1 hb)
    simp [analyze_memory_usage, hlast, hl]

/-- Witness for c9_memory_leak: previous sample 100000 KB with new sample
160000 KB emits the leak error whose increase_percentage is 60; new sample
140000 KB emits nothing. -/
theorem c9_memory_leak_witness :
    analyze_memory_usage (leakDetectorWith 100000) [("total_pss_kb", 160000)] 1000000 =
      .ok ([memLeakErrorAt 100000 160000 1000000],
           { leakDetectorWith 100000 with last_memory_usage := some 160000 })
    ∧ (memLeakErrorAt 100000 160000 1000000).details.lookup "increase_percentage" =
      some (.num 60)
    ∧ analyze_memory_usage (leakDetectorWith 100000) [("total_pss_kb", 140000)] 1000000 =
      .ok ([], { leakDetectorWith 100000 with last_memory_usage := some 140000 }) := by
  refine ⟨?_, ?_, ?_⟩
  · have h := (c9_memory_leak (leakDetectorWith 100000) 1000000 100000 160000
      rfl (by decide)).1 (by decide)
    rw [if_neg (by decide)] at h
    simpa using h
  · have hlook : (memLeakErrorAt 100000 160000 1000000).details.lookup "increase_percentage"
        = some (.num ((((160000 : Int) : Rat) - ((100000 : Int) : Rat)) / ((100000 : Int) : Rat) * 100)) := rfl
    rw [hlook]
    simp only [Option.some.injEq, Value.num.injEq]
    norm_num
  · have h := (c9_memory_leak (leakDetectorWith 100000) 1000000 100000 140000
      rfl (by decide)).2 (by decide)
    rw [if_neg (by decide)] at h
    simpa using h

end HazelMonitor
